import Mathlib

/-!
Shallow embedding of `static/js/theme-toggle.js`, the light/dark theme
toggle of the blog.  DOM and client-storage effects are modelled as
explicit state passing over `PageState`; storage failures (a throwing
`getItem` or `setItem`) are modelled by boolean flags on the storage
state.  The ambient `prefers-color-scheme` media query is a boolean
input.
-/

namespace ThemeToggle

/-- The fixed preference key of the script: `const storageKey = "theme"`. -/
def storageKey : String := "theme"

/-- Client-side persistent storage (`window.localStorage`): a key-value
map together with flags recording whether `getItem` respectively
`setItem` throw. -/
structure Storage where
  items : String → Option String
  getFails : Bool
  setFails : Bool

/-- Mirrors `safeStorageGet`: `localStorage.getItem(storageKey)` inside a
try/catch, returning `null` (here `none`) when the read throws. -/
def safeStorageGet (s : Storage) : Option String :=
  if s.getFails then none else s.items storageKey

/-- Mirrors `safeStorageSet`: `localStorage.setItem(storageKey, theme)`
inside a try/catch, silently ignoring a throwing write. -/
def safeStorageSet (theme : String) (s : Storage) : Storage :=
  if s.setFails then s
  else { s with items := fun k => if k == storageKey then some theme else s.items k }

/-- JavaScript truthiness of a string-or-null value: `null` and the empty
string are falsy, every other string is truthy. -/
def truthyStr : Option String → Bool
  | none => false
  | some s => !(s == "")

/-- Mirrors `getPreferredTheme`: the stored value when truthy, otherwise
the ambient color-scheme signal
(`matchMedia("(prefers-color-scheme: dark)").matches`). -/
def getPreferredTheme (s : Storage) (prefersDark : Bool) : String :=
  let storedTheme := safeStorageGet s
  if truthyStr storedTheme then storedTheme.getD ""
  else if prefersDark then "dark" else "light"

/-- State of the page as the script sees it: the `data-theme` attribute
on the document element, the text content and `aria-label` of the toggle
control, the storage, whether the click handler has been registered, and
the ambient color-scheme signal. -/
structure PageState where
  themeAttr : Option String
  toggleText : Option String
  ariaLabel : Option String
  storage : Storage
  handlerRegistered : Bool
  prefersDark : Bool

/-- Mirrors `setTheme`: sets the `data-theme` attribute, the toggle glyph
(sun when the theme is dark, moon otherwise), the accessible label, and
attempts to persist the value. -/
def setTheme (theme : String) (st : PageState) : PageState :=
  { st with
    themeAttr := some theme
    toggleText := some (if theme == "dark" then "☀️" else "🌙")
    ariaLabel := some (if theme == "dark" then "Switch to light mode"
                       else "Switch to dark mode")
    storage := safeStorageSet theme st.storage }

/-- Mirrors the click handler: reads the current `data-theme` attribute,
computes the opposite value (anything other than `"dark"` flips to
`"dark"`), and calls `setTheme` with it. -/
def clickStep (st : PageState) : PageState :=
  let nextTheme := if st.themeAttr == some "dark" then "light" else "dark"
  setTheme nextTheme st

/-- Mirrors the body of the IIFE: if no toggle control is present the
script returns at once; otherwise it applies the preferred theme and
registers the click handler. -/
def init (togglePresent : Bool) (st : PageState) : PageState :=
  if !togglePresent then st
  else { setTheme (getPreferredTheme st.storage st.prefersDark) st with
         handlerRegistered := true }

/-- Runs `n` successive activations of the toggle control. -/
def runClicks : Nat → PageState → PageState
  | 0, st => st
  | n + 1, st => runClicks n (clickStep st)

/-- Storage that holds no value at all and never fails. -/
def emptyStorage : Storage :=
  { items := fun _ => none, getFails := false, setFails := false }

/-- A freshly loaded page: no attributes set, empty storage, ambient
signal light. -/
def freshState : PageState :=
  { themeAttr := none, toggleText := none, ariaLabel := none,
    storage := emptyStorage, handlerRegistered := false, prefersDark := false }

/-- A page whose document currently carries the dark theme attribute. -/
def darkState : PageState :=
  { themeAttr := some "dark", toggleText := some "☀️",
    ariaLabel := some "Switch to light mode",
    storage := emptyStorage, handlerRegistered := true, prefersDark := false }

/-- A fresh page whose storage already holds the foreign value
`"banana"` under the preference key (written by some external actor). -/
def bananaState : PageState :=
  { themeAttr := none, toggleText := none, ariaLabel := none,
    storage := { items := fun k => if k == "theme" then some "banana" else none,
                 getFails := false, setFails := false },
    handlerRegistered := false, prefersDark := false }

/-- The storage content under the preference key is unset, empty, or one
of the two valid tokens. -/
def validOrUnset (s : Storage) : Prop :=
  s.items storageKey = none ∨ s.items storageKey = some "" ∨
  s.items storageKey = some "light" ∨ s.items storageKey = some "dark"

/-- The two-token invariant: the document theme attribute is one of the
two valid tokens, and when writes succeed the persisted value agrees
with it. -/
def themeInvariant (st : PageState) : Prop :=
  (st.themeAttr = some "light" ∨ st.themeAttr = some "dark") ∧
  (st.storage.setFails = false → st.storage.items storageKey = st.themeAttr)

theorem setTheme_invariant (v : String) (st : PageState)
    (hv : v = "light" ∨ v = "dark") : themeInvariant (setTheme v st) := by
  constructor
  · rcases hv with h | h <;> subst h <;> simp [setTheme]
  · intro hw
    by_cases hf : st.storage.setFails
    · simp [setTheme, safeStorageSet, hf] at hw
    · simp [setTheme, safeStorageSet, hf]

theorem clickStep_invariant (st : PageState) : themeInvariant (clickStep st) := by
  unfold clickStep
  apply setTheme_invariant
  by_cases h : st.themeAttr = some "dark" <;> simp [h]

theorem runClicks_invariant (n : Nat) (st : PageState) (h : themeInvariant st) :
    themeInvariant (runClicks n st) := by
  induction n generalizing st with
  | zero => exact h
  | succ n ih => exact ih _ (clickStep_invariant st)

theorem getPreferredTheme_valid (s : Storage) (p : Bool)
    (h : validOrUnset s ∨ s.getFails = true) :
    getPreferredTheme s p = "light" ∨ getPreferredTheme s p = "dark" := by
  by_cases hf : s.getFails
  · cases p <;> simp [getPreferredTheme, safeStorageGet, truthyStr, hf]
  · rcases h with h | h
    · rcases h with h | h | h | h <;> cases p <;>
        simp [getPreferredTheme, safeStorageGet, truthyStr, hf, h]
    · exact absurd h (by simpa using hf)

theorem init_invariant (st : PageState)
    (h : validOrUnset st.storage ∨ st.storage.getFails = true) :
    themeInvariant (init true st) :=
  setTheme_invariant _ st (getPreferredTheme_valid st.storage st.prefersDark h)

/-- Claim C1: an activation of the toggle flips `dark` to `light` and
`light` to `dark` on the document theme attribute, and two activations
starting from a theme attribute in the two-token set restore it. -/
theorem toggle_click_involution (st : PageState)
    (h : st.themeAttr = some "light" ∨ st.themeAttr = some "dark") :
    (st.themeAttr = some "dark" → (clickStep st).themeAttr = some "light") ∧
    (st.themeAttr = some "light" → (clickStep st).themeAttr = some "dark") ∧
    (clickStep (clickStep st)).themeAttr = st.themeAttr := by
  rcases h with h | h <;> simp [clickStep, setTheme, h]

/-- Witness for C1 at the concrete dark page. -/
theorem toggle_click_involution_witness :
    ((darkState.themeAttr = some "dark" →
        (clickStep darkState).themeAttr = some "light") ∧
     (darkState.themeAttr = some "light" →
        (clickStep darkState).themeAttr = some "dark") ∧
     (clickStep (clickStep darkState)).themeAttr = darkState.themeAttr) :=
  toggle_click_involution darkState (Or.inr rfl)

/-- Claim C2: for a value in the two-token set, `setTheme` sets the theme
attribute to the value, shows the sun glyph exactly when the value is
dark and the moon glyph exactly when it is light, and sets the matching
accessible label. -/
theorem setTheme_applies_preference (v : String) (st : PageState)
    (h : v = "light" ∨ v = "dark") :
    (setTheme v st).themeAttr = some v ∧
    ((setTheme v st).toggleText = some "☀️" ↔ v = "dark") ∧
    ((setTheme v st).toggleText = some "🌙" ↔ v = "light") ∧
    ((setTheme v st).ariaLabel = some "Switch to light mode" ↔ v = "dark") ∧
    ((setTheme v st).ariaLabel = some "Switch to dark mode" ↔ v = "light") := by
  rcases h with h | h <;> subst h <;> simp [setTheme]

/-- Witness for C2 at the value dark on a fresh page. -/
theorem setTheme_applies_preference_witness :
    ((setTheme "dark" freshState).themeAttr = some "dark" ∧
     ((setTheme "dark" freshState).toggleText = some "☀️" ↔ ("dark" : String) = "dark") ∧
     ((setTheme "dark" freshState).toggleText = some "🌙" ↔ ("dark" : String) = "light") ∧
     ((setTheme "dark" freshState).ariaLabel = some "Switch to light mode" ↔
        ("dark" : String) = "dark") ∧
     ((setTheme "dark" freshState).ariaLabel = some "Switch to dark mode" ↔
        ("dark" : String) = "light")) :=
  setTheme_applies_preference "dark" freshState (Or.inr rfl)

/-- Claim C3: when no stored value exists or the storage read fails,
`getPreferredTheme` returns dark exactly when the ambient signal reports
dark, and light otherwise; the failure is recovered locally (the result
is always one of the two themes). -/
theorem getPreferredTheme_ambient_fallback (s : Storage) (p : Bool)
    (h : s.getFails = true ∨ s.items storageKey = none) :
    getPreferredTheme s p = (if p then "dark" else "light") ∧
    (getPreferredTheme s p = "dark" ↔ p = true) ∧
    (getPreferredTheme s p = "light" ∨ getPreferredTheme s p = "dark") := by
  rcases h with h | h <;> cases p <;>
    simp [getPreferredTheme, safeStorageGet, truthyStr, h]

/-- Witness for C3 on the empty storage with ambient signal light. -/
theorem getPreferredTheme_ambient_fallback_witness :
    (getPreferredTheme emptyStorage false = (if false then "dark" else "light") ∧
     (getPreferredTheme emptyStorage false = "dark" ↔ false = true) ∧
     (getPreferredTheme emptyStorage false = "light" ∨
      getPreferredTheme emptyStorage false = "dark")) :=
  getPreferredTheme_ambient_fallback emptyStorage false (Or.inr rfl)

/-- Claim C4: a stored value in the two-token set is returned unchanged
by `getPreferredTheme` when the read succeeds. -/
theorem getPreferredTheme_returns_stored (s : Storage) (p : Bool) (v : String)
    (hv : v = "light" ∨ v = "dark")
    (hok : s.getFails = false) (hs : s.items storageKey = some v) :
    getPreferredTheme s p = v := by
  rcases hv with h | h <;> subst h <;>
    simp [getPreferredTheme, safeStorageGet, truthyStr, hok, hs]

/-- Storage that holds the value dark under the preference key and never
fails. -/
def storedDarkStorage : Storage :=
  { items := fun k => if k == "theme" then some "dark" else none,
    getFails := false, setFails := false }

/-- Witness for C4 on a storage holding dark, with ambient signal light. -/
theorem getPreferredTheme_returns_stored_witness :
    getPreferredTheme storedDarkStorage false = "dark" :=
  getPreferredTheme_returns_stored storedDarkStorage false "dark"
    (Or.inr rfl) rfl rfl

/-- Claim C5: when the storage write fails, `setTheme` still updates the
theme attribute, glyph and label exactly as in the success case, and the
stored items are left untouched. -/
theorem setTheme_visuals_on_write_failure (v : String) (st : PageState)
    (h : st.storage.setFails = true) :
    (setTheme v st).themeAttr = some v ∧
    (setTheme v st).toggleText = some (if v == "dark" then "☀️" else "🌙") ∧
    (setTheme v st).ariaLabel =
      some (if v == "dark" then "Switch to light mode" else "Switch to dark mode") ∧
    (setTheme v st).themeAttr =
      (setTheme v { st with storage := { st.storage with setFails := false } }).themeAttr ∧
    (setTheme v st).toggleText =
      (setTheme v { st with storage := { st.storage with setFails := false } }).toggleText ∧
    (setTheme v st).ariaLabel =
      (setTheme v { st with storage := { st.storage with setFails := false } }).ariaLabel ∧
    (setTheme v st).storage.items = st.storage.items := by
  refine ⟨rfl, rfl, rfl, rfl, rfl, rfl, ?_⟩
  simp [setTheme, safeStorageSet, h]

/-- A fresh page whose storage writes always fail. -/
def failingSetState : PageState :=
  { freshState with storage := { emptyStorage with setFails := true } }

/-- Witness for C5 at the value light on a page with failing writes. -/
theorem setTheme_visuals_on_write_failure_witness :
    ((setTheme "light" failingSetState).themeAttr = some "light" ∧
     (setTheme "light" failingSetState).toggleText =
       some (if ("light" : String) == "dark" then "☀️" else "🌙") ∧
     (setTheme "light" failingSetState).ariaLabel =
       some (if ("light" : String) == "dark" then "Switch to light mode"
             else "Switch to dark mode") ∧
     (setTheme "light" failingSetState).themeAttr =
       (setTheme "light" { failingSetState with
          storage := { failingSetState.storage with setFails := false } }).themeAttr ∧
     (setTheme "light" failingSetState).toggleText =
       (setTheme "light" { failingSetState with
          storage := { failingSetState.storage with setFails := false } }).toggleText ∧
     (setTheme "light" failingSetState).ariaLabel =
       (setTheme "light" { failingSetState with
          storage := { failingSetState.storage with setFails := false } }).ariaLabel ∧
     (setTheme "light" failingSetState).storage.items =
       failingSetState.storage.items) :=
  setTheme_visuals_on_write_failure "light" failingSetState rfl

/-- Claim C6 counterexample: initialization on a page whose storage
already holds the foreign value banana leaves the document theme
attribute and the persisted value outside the two-token set, refuting
the claim that they are always light or dark. -/
theorem theme_invariant_fails_on_foreign_stored_value :
    (init true bananaState).themeAttr = some "banana" ∧
    (init true bananaState).themeAttr ≠ some "light" ∧
    (init true bananaState).themeAttr ≠ some "dark" ∧
    (init true bananaState).storage.items storageKey = some "banana" := by
  refine ⟨rfl, by decide, by decide, rfl⟩

/-- Claim C6 (amended): provided the initial stored value is absent,
empty, or one of the two tokens, or the storage read fails, then after
initialization with the toggle present and any number of toggle
activations the document theme attribute is exactly one of light or
dark, and when writes succeed the persisted value agrees with it. -/
theorem theme_invariant_reachable (st : PageState) (n : Nat)
    (h : validOrUnset st.storage ∨ st.storage.getFails = true) :
    ((runClicks n (init true st)).themeAttr = some "light" ∨
     (runClicks n (init true st)).themeAttr = some "dark") ∧
    ((runClicks n (init true st)).storage.setFails = false →
     (runClicks n (init true st)).storage.items storageKey =
       (runClicks n (init true st)).themeAttr) :=
  runClicks_invariant n _ (init_invariant st h)

/-- Witness for the amended C6: three activations after loading a fresh
page. -/
theorem theme_invariant_reachable_witness :
    (((runClicks 3 (init true freshState)).themeAttr = some "light" ∨
      (runClicks 3 (init true freshState)).themeAttr = some "dark") ∧
     ((runClicks 3 (init true freshState)).storage.setFails = false →
      (runClicks 3 (init true freshState)).storage.items storageKey =
        (runClicks 3 (init true freshState)).themeAttr)) :=
  theme_invariant_reachable freshState 3 (Or.inl (Or.inl rfl))

/-- Claim C7: when no toggle control is present, initialization performs
no work at all: the page state, including attributes, storage and the
handler flag, is returned unchanged. -/
theorem init_without_toggle_is_noop (st : PageState) : init false st = st := rfl

/-- Claim C8: when the write succeeds, `setTheme` persists the value
under the fixed key and writes no other key. -/
theorem setTheme_persists_under_fixed_key (v : String) (st : PageState)
    (h : st.storage.setFails = false) :
    (setTheme v st).storage.items storageKey = some v ∧
    ∀ k : String, k ≠ storageKey →
      (setTheme v st).storage.items k = st.storage.items k := by
  constructor
  · simp [setTheme, safeStorageSet, h]
  · intro k hk
    simp [setTheme, safeStorageSet, h, hk]

/-- Witness for C8: persisting light on a fresh page stores it under the
key theme and leaves an unrelated key untouched. -/
theorem setTheme_persists_under_fixed_key_witness :
    ((setTheme "light" freshState).storage.items storageKey = some "light" ∧
     (setTheme "light" freshState).storage.items "color" =
       freshState.storage.items "color") :=
  ⟨(setTheme_persists_under_fixed_key "light" freshState rfl).1,
   (setTheme_persists_under_fixed_key "light" freshState rfl).2 "color" (by decide)⟩

/-- Claim C9: the stored preference is not validated: any non-empty
stored string flows through `getPreferredTheme` unchanged,
initialization applies it to the document theme attribute and persists
it back, and when the string differs from dark the toggle shows the
moon glyph with the label for switching to dark mode. -/
theorem stored_value_not_validated (s : String) (st : PageState)
    (hs : s ≠ "")
    (hg : st.storage.getFails = false)
    (hstored : st.storage.items storageKey = some s) :
    getPreferredTheme st.storage st.prefersDark = s ∧
    (init true st).themeAttr = some s ∧
    (st.storage.setFails = false →
      (init true st).storage.items storageKey = some s) ∧
    (s ≠ "dark" →
      (init true st).toggleText = some "🌙" ∧
      (init true st).ariaLabel = some "Switch to dark mode") := by
  have hpref : getPreferredTheme st.storage st.prefersDark = s := by
    simp [getPreferredTheme, safeStorageGet, truthyStr, hg, hstored, hs]
  refine ⟨hpref, ?_, ?_, ?_⟩
  · simp [init, hpref, setTheme]
  · intro hw
    simp [init, hpref, setTheme, safeStorageSet, hw]
  · intro hd
    constructor <;> simp [init, hpref, setTheme, hd]

/-- Witness for C9 at the foreign stored value banana. -/
theorem stored_value_not_validated_witness :
    (getPreferredTheme bananaState.storage bananaState.prefersDark = "banana" ∧
     (init true bananaState).themeAttr = some "banana" ∧
     (bananaState.storage.setFails = false →
       (init true bananaState).storage.items storageKey = some "banana") ∧
     (("banana" : String) ≠ "dark" →
       (init true bananaState).toggleText = some "🌙" ∧
       (init true bananaState).ariaLabel = some "Switch to dark mode")) :=
  stored_value_not_validated "banana" bananaState (by decide) rfl rfl

/-- Storage holding the empty string under the preference key. -/
def emptyStringStorage : Storage :=
  { items := fun k => if k == "theme" then some "" else none,
    getFails := false, setFails := false }

/-- Claim C10: a stored empty string is treated exactly like an absent
value: `getPreferredTheme` ignores it and falls back to the ambient
color-scheme signal, as it does when the key is erased. -/
theorem empty_stored_value_falls_back (s : Storage) (p : Bool)
    (hg : s.getFails = false) (hstored : s.items storageKey = some "") :
    getPreferredTheme s p = (if p then "dark" else "light") ∧
    getPreferredTheme s p =
      getPreferredTheme
        { s with items := fun k => if k == storageKey then none else s.items k } p := by
  cases p <;>
    simp [getPreferredTheme, safeStorageGet, truthyStr, hg, hstored]

/-- Witness for C10 on a storage holding the empty string, with ambient
signal dark. -/
theorem empty_stored_value_falls_back_witness :
    (getPreferredTheme emptyStringStorage true = (if true then "dark" else "light") ∧
     getPreferredTheme emptyStringStorage true =
       getPreferredTheme
         { emptyStringStorage with
           items := fun k => if k == storageKey then none
                             else emptyStringStorage.items k } true) :=
  empty_stored_value_falls_back emptyStringStorage true rfl rfl

end ThemeToggle
